import Mathlib

/-!
Shallow embedding of the client-server orchestration core:
peer lifecycle over transport configs, outbound connection establishment
with the discovery handshake, and manifest generation.

Conventions of the embedding:
* JavaScript strings become Lean `String`; the JS method
  String.prototype.startsWith is modelled character-wise (`strStartsWith`).
* Optional / possibly-undefined fields become `Option`; the JS nullish
  coalescing operator `a ?? b` becomes `Option.getD`.
* Code that can throw returns `Except String`; a `catch` block is a `match`
  on that result.
* Network and clock effects (the result of the remote discovery call, the
  outcome of a directory-creation syscall, timestamps, freshly minted ids)
  are passed in as explicit parameters, so every function is pure and
  executable.
-/

namespace ClientServer

/-- Models JS String.prototype.startsWith: character-wise prefix test. -/
def strStartsWith (s p : String) : Bool :=
  p.data.isPrefixOf s.data

-- ===========================================================================
-- Data model (src/types.ts)
-- ===========================================================================

/-- TransportType = "http" | "websocket" | "local" (src/types.ts). -/
inductive TransportType where
  | http
  | websocket
  | local
deriving DecidableEq, Repr

/-- ProcedureInfo from src/types.ts (schema fields omitted: the source never
populates them — see the TODO comments at the conversion sites). -/
structure ProcedureInfo where
  path : List String
  description : Option String := none
deriving DecidableEq, Repr

/-- Procedure metadata as read by discovery and manifest code:
`proc.metadata as { description?: string; internal?: boolean }`.
An absent `internal` flag reads as false. -/
structure ProcMeta where
  description : Option String := none
  internal : Bool := false
deriving DecidableEq, Repr

/-- An entry of PROCEDURE_REGISTRY as the orchestration code consumes it:
a path, metadata, and whether a handler is attached
(the code tests `proc.handler !== undefined`). -/
structure RegisteredProcedure where
  path : List String
  metadata : ProcMeta := {}
  hasHandler : Bool := true
deriving DecidableEq, Repr

/-- Conversion used by discovery and manifest code: keep the path, copy the
description from metadata when present. -/
def toProcedureInfo (p : RegisteredProcedure) : ProcedureInfo :=
  { path := p.path, description := p.metadata.description }

-- ===========================================================================
-- Discovery (src/discovery/index.ts)
-- ===========================================================================

/-- ProcedureAnnounceMessage from src/types.ts. -/
structure ProcedureAnnounceMessage where
  type : String
  peerId : String
  procedures : List ProcedureInfo
deriving DecidableEq, Repr

/-- Handler of the _discovery.announce procedure: filters out procedures whose
metadata flags them internal, converts the rest to ProcedureInfo, and returns
the announce message. The generated peer id (process pid + timestamp in the
source) is passed in as `peerId`. -/
def discoveryAnnounceHandler (registry : List RegisteredProcedure)
    (peerId : String) : ProcedureAnnounceMessage :=
  { type := "procedure-announce"
  , peerId := peerId
  , procedures :=
      (registry.filter (fun p => !p.metadata.internal)).map toProcedureInfo }

/-- The discovery procedure itself as registered: path _discovery.announce,
metadata with internal := true (src/discovery/index.ts, .meta call). -/
def discoveryAnnounceProc : RegisteredProcedure :=
  { path := ["_discovery", "announce"]
  , metadata :=
      { description := some "Exchange procedure manifests for discovery"
      , internal := true }
  , hasHandler := true }

-- ===========================================================================
-- Manifest generation (src/procedures/manifest.generate.ts, src/manifest/json.ts)
-- ===========================================================================

/-- The namespace-filter predicate of manifest.generate: the JS loop
`for i in 0..ns.length-1: if (proc.path[i] !== ns[i]) return false; return true`.
Indexing past the end of the path yields undefined in JS, which differs from
every namespace segment, hence the false in the second case. -/
def matchesNamespace : List String → List String → Bool
  | [], _ => true
  | _ :: _, [] => false
  | n :: ns, p :: ps => if p = n then matchesNamespace ns ps else false

/-- Namespace filtering step of the manifest.generate handler:
`if (input.namespace && input.namespace.length > 0)` filter, else keep all. -/
def filterByNamespace (nsFilter : Option (List String))
    (procs : List RegisteredProcedure) : List RegisteredProcedure :=
  match nsFilter with
  | some ns =>
      if 0 < ns.length then procs.filter (fun p => matchesNamespace ns p.path)
      else procs
  | none => procs

/-- ProcedureManifest from src/manifest/json.ts. -/
structure ProcedureManifest where
  version : String
  generatedAt : String
  procedures : List ProcedureInfo
deriving DecidableEq, Repr

/-- generateJson from src/manifest/json.ts; the timestamp is a parameter. -/
def generateJson (generatedAt : String)
    (procedures : List ProcedureInfo) : ProcedureManifest :=
  { version := "1.0.0", generatedAt := generatedAt, procedures := procedures }

/-- The procedures part of the manifest.generate handler: filter the registry
by the optional namespace, then convert to ProcedureInfo. -/
def manifestProcedureInfos (nsFilter : Option (List String))
    (registry : List RegisteredProcedure) : List ProcedureInfo :=
  (filterByNamespace nsFilter registry).map toProcedureInfo

/-- Outcome of the mkdir(dir, recursive:true) syscall, as the environment
resolves it. With recursive:true a pre-existing directory already resolves
successfully at the syscall level. -/
inductive MkdirOutcome where
  | ok
  | permissionDenied
  | otherError (message : String)
deriving DecidableEq, Repr

/-- The mkdir call inside ensureDir: resolves, or rejects with an error. -/
def mkdirRecursive : MkdirOutcome → Except String Unit
  | .ok => .ok ()
  | .permissionDenied => .error "EACCES: permission denied"
  | .otherError m => .error m

/-- ensureDir from src/procedures/manifest.generate.ts: awaits mkdir inside a
try block whose catch clause is empty, so every rejection is swallowed and
ensureDir always resolves successfully. -/
def ensureDir (outcome : MkdirOutcome) : Except String Unit :=
  match mkdirRecursive outcome with
  | .ok _ => .ok ()
  | .error _ => .ok ()

-- ===========================================================================
-- Peer (src/peer/index.ts)
-- ===========================================================================

/-- A transport config as the runtime sees it: an object with a `type`
discriminant string plus optional fields. The discriminant is kept as a
string (not the closed TransportType) because the dispatch in the source is
a JS switch on the runtime value, which an out-of-union tag can reach. -/
structure TransportConfig where
  type : String
  port : Option Nat := none
  host : Option String := none
  basePath : Option String := none
  cors : Option Bool := none
  path : Option String := none
deriving DecidableEq, Repr

/-- PeerEndpoint from src/peer/index.ts. -/
structure PeerEndpoint where
  type : TransportType
  address : String
deriving DecidableEq, Repr

/-- Address computed by startHttpTransport: host 0.0.0.0 renders as
localhost, defaults port 3000 and basePath /api. -/
def httpAddress (c : TransportConfig) : String :=
  let host := c.host.getD "0.0.0.0"
  let port := c.port.getD 3000
  let basePath := c.basePath.getD "/api"
  "http://" ++ (if host = "0.0.0.0" then "localhost" else host) ++ ":"
    ++ toString port ++ basePath

/-- Address computed by startWebSocketTransport: defaults port 3001, path /ws. -/
def wsAddress (c : TransportConfig) : String :=
  let host := c.host.getD "0.0.0.0"
  let port := c.port.getD 3001
  let p := c.path.getD "/ws"
  "ws://" ++ (if host = "0.0.0.0" then "localhost" else host) ++ ":"
    ++ toString port ++ p

/-- PeerOptions from src/peer/index.ts (the registry reference is opaque to
the lifecycle logic and omitted). -/
structure PeerOptions where
  id : String
  transports : List TransportConfig
  autoRegister : Option Bool := none
deriving DecidableEq, Repr

/-- Mutable state of a PeerImpl instance: the constructor stores the id and
transport list, sets autoRegister for the ProcedureServer
(options.autoRegister ?? true), and starts with no endpoints, not started. -/
structure PeerState where
  id : String
  transports : List TransportConfig
  autoRegister : Bool
  endpoints : List PeerEndpoint := []
  started : Bool := false
deriving DecidableEq, Repr

/-- State built by the PeerImpl constructor. It stores the options unchecked:
there is no validation of the transport list at construction. -/
def peerInit (options : PeerOptions) : PeerState :=
  { id := options.id
  , transports := options.transports
  , autoRegister := options.autoRegister.getD true }

/-- createPeer from src/peer/index.ts: constructs a PeerImpl. The Except
return mirrors that a JS constructor call can in principle throw; this one
never does — it only copies fields. -/
def createPeer (options : PeerOptions) : Except String PeerState :=
  .ok (peerInit options)

/-- PeerImpl.startTransport: a switch on config.type with cases http,
websocket and local, each appending one endpoint, and no default case —
an unrecognized tag falls through the switch and nothing happens. Successful
network binds are abstracted: the adapters' bind succeeds and the endpoint
address is the computed URL string. -/
def PeerState.startTransport (s : PeerState) (config : TransportConfig) :
    PeerState :=
  if config.type = "http" then
    { s with endpoints :=
        s.endpoints ++ [{ type := .http, address := httpAddress config }] }
  else if config.type = "websocket" then
    { s with endpoints :=
        s.endpoints ++ [{ type := .websocket, address := wsAddress config }] }
  else if config.type = "local" then
    { s with endpoints :=
        s.endpoints ++ [{ type := .local, address := "local://in-process" }] }
  else s

/-- PeerImpl.start: returns immediately when already started, otherwise runs
startTransport over the configured list and sets the started flag. -/
def PeerState.start (s : PeerState) : PeerState :=
  if s.started then s
  else { s.transports.foldl PeerState.startTransport s with started := true }

/-- PeerImpl.stop: returns immediately when not started, otherwise stops the
server, clears the started flag and the endpoint list. -/
def PeerState.stop (s : PeerState) : PeerState :=
  if !s.started then s
  else { s with started := false, endpoints := [] }

/-- PeerImpl.getEndpoints: returns a copy of the current endpoint list. -/
def PeerState.getEndpoints (s : PeerState) : List PeerEndpoint :=
  s.endpoints

-- ===========================================================================
-- server.create (src/procedures/server.create.ts)
-- ===========================================================================

/-- ServerCreateInput from src/types.ts: both fields optional. -/
structure ServerCreateInput where
  transports : Option (List TransportConfig) := none
  autoRegister : Option Bool := none
deriving DecidableEq, Repr

/-- ServerCreateOutput from src/types.ts. -/
structure ServerCreateOutput where
  serverId : String
  endpoints : List PeerEndpoint
  procedureCount : Nat
deriving DecidableEq, Repr

/-- Handler of server.create: defaults transports to one http config on port
3000 and autoRegister to true for the peer, creates and starts the peer, then
computes procedureCount from the RAW input field — the JS conditional
`input.autoRegister ? count : 0` is truthy only for the value true, so an
omitted field yields 0. The minted server id is a parameter. -/
def serverCreateHandler (serverId : String)
    (registry : List RegisteredProcedure) (input : ServerCreateInput) :
    Except String (ServerCreateOutput × PeerState) :=
  let transports :=
    input.transports.getD [{ type := "http", port := some 3000 }]
  let autoRegister := input.autoRegister.getD true
  match createPeer
      { id := serverId, transports := transports
      , autoRegister := some autoRegister } with
  | .error e => .error e
  | .ok peer =>
    let peerStarted := peer.start
    let procedureCount :=
      match input.autoRegister with
      | some true => (registry.filter (fun p => p.hasHandler)).length
      | _ => 0
    .ok ({ serverId := serverId
         , endpoints := peerStarted.getEndpoints
         , procedureCount := procedureCount }, peerStarted)

-- ===========================================================================
-- Connection manager (src/connection/index.ts)
-- ===========================================================================

/-- detectTransport from src/connection/index.ts: scheme-based inference with
http as the fallback. -/
def detectTransport (address : String) : TransportType :=
  if strStartsWith address "ws://" || strStartsWith address "wss://" then
    .websocket
  else if strStartsWith address "http://" || strStartsWith address "https://" then
    .http
  else if strStartsWith address "local://" then
    .local
  else
    .http

/-- The client value createClient builds: an HttpTransport client with the
address as baseUrl and an optional timeout, or a WebSocketTransport client
with connection timeout defaulted to 10000. -/
inductive ClientModel where
  | httpClient (baseUrl : String) (timeout : Option Nat)
  | wsClient (url : String) (connectionTimeout : Nat)
deriving DecidableEq, Repr

/-- createClient from src/connection/index.ts: builds the transport-specific
client; the local case throws. -/
def createClient (address : String) (transport : TransportType)
    (timeout : Option Nat) : Except String ClientModel :=
  match transport with
  | .http => .ok (.httpClient address timeout)
  | .websocket => .ok (.wsClient address (timeout.getD 10000))
  | .local =>
      .error "Local transport for outbound connections not yet implemented"

/-- Result of the remote discovery call performed over the freshly opened
channel, as the environment resolves it: the announce response, or a
rejection. -/
inductive DiscoveryOutcome where
  | success (peerId : String) (procedures : List ProcedureInfo)
  | failure (message : String)
deriving DecidableEq, Repr

/-- Return value of discoverProcedures. -/
structure DiscoveryResult where
  peerId : String
  procedures : List ProcedureInfo
deriving DecidableEq, Repr

/-- discoverProcedures from src/connection/index.ts: the try block forwards
the response fields; the catch block logs and degrades to peer id unknown
and an empty procedure list. Never throws. -/
def discoverProcedures (outcome : DiscoveryOutcome) : DiscoveryResult :=
  match outcome with
  | .success pid procs => { peerId := pid, procedures := procs }
  | .failure _ => { peerId := "unknown", procedures := [] }

/-- PeerConnection from src/types.ts; the state field is kept as the literal
string the code stores. connectedAt is the clock value passed to connect. -/
structure PeerConnection where
  id : String
  remotePeerId : String
  transport : TransportType
  state : String
  remoteProcedures : List ProcedureInfo
  connectedAt : Option Nat := none
deriving DecidableEq, Repr

/-- Connection from src/connection/index.ts (the disconnect closure acts on
the registry and is modelled by the disconnect function below). -/
structure Connection where
  id : String
  remote : PeerConnection
  client : ClientModel
deriving DecidableEq, Repr

/-- The module-level connections Map, keyed by connection id. -/
abbrev ConnectionRegistry := List (String × Connection)

/-- Map.get: first entry with the key. -/
def registryLookup : ConnectionRegistry → String → Option Connection
  | [], _ => none
  | (k, c) :: rest, id => if k = id then some c else registryLookup rest id

/-- Map.set: replace the entry in place when the key exists, else append. -/
def registrySet : ConnectionRegistry → String → Connection →
    ConnectionRegistry
  | [], id, c => [(id, c)]
  | (k, v) :: rest, id, c =>
      if k = id then (id, c) :: rest else (k, v) :: registrySet rest id c

/-- Map.delete: remove the entry with the key. -/
def registryDelete : ConnectionRegistry → String → ConnectionRegistry
  | [], _ => []
  | (k, v) :: rest, id =>
      if k = id then rest else (k, v) :: registryDelete rest id

/-- ConnectOptions from src/connection/index.ts. -/
structure ConnectOptions where
  address : String
  transport : Option TransportType := none
  timeout : Option Nat := none
  localPeerId : Option String := none
deriving DecidableEq, Repr

/-- connect from src/connection/index.ts. The minted connection id and the
clock are parameters; discovery is the environment's response to the
handshake call. Steps, in source order: resolve the transport (explicit or
inferred from the address), create the client (throws for local), run
discovery (never throws), then build the Connection — with state set to the
literal "connected" — and store it in the registry. -/
def connect (connectionId : String) (now : Nat)
    (discovery : DiscoveryOutcome) (options : ConnectOptions)
    (registry : ConnectionRegistry) :
    Except String (Connection × ConnectionRegistry) :=
  let transport := options.transport.getD (detectTransport options.address)
  match createClient options.address transport options.timeout with
  | .error e => .error e
  | .ok client =>
    let result := discoverProcedures discovery
    let connection : Connection :=
      { id := connectionId
      , remote :=
        { id := connectionId
        , remotePeerId := result.peerId
        , transport := transport
        , state := "connected"
        , remoteProcedures := result.procedures
        , connectedAt := some now }
      , client := client }
    .ok (connection, registrySet registry connectionId connection)

/-- disconnect from src/connection/index.ts: a miss returns false and leaves
the registry alone; a hit runs the connection's disconnect closure (which
deletes the entry) and returns true. -/
def disconnect (registry : ConnectionRegistry) (connectionId : String) :
    Bool × ConnectionRegistry :=
  match registryLookup registry connectionId with
  | none => (false, registry)
  | some _ => (true, registryDelete registry connectionId)

-- ===========================================================================
-- Shared helper lemmas
-- ===========================================================================

/-- The manifest namespace predicate is exactly the list-prefix relation. -/
theorem matchesNamespace_iff (ns p : List String) :
    matchesNamespace ns p = true ↔ ns <+: p := by
  induction ns generalizing p with
  | nil => simp [matchesNamespace, List.nil_prefix]
  | cons n ns ih =>
    cases p with
    | nil =>
      simp [matchesNamespace]
    | cons q qs =>
      by_cases hq : q = n
      · subst hq
        simp [matchesNamespace, ih, List.cons_prefix_cons]
      · simp [matchesNamespace, hq, List.cons_prefix_cons]
        exact fun h => absurd h.symm hq

/-- strStartsWith agrees with the list-prefix relation on the characters. -/
theorem strStartsWith_iff (s p : String) :
    strStartsWith s p = true ↔ p.data <+: s.data := by
  simp [strStartsWith, List.isPrefixOf_iff_prefix]

/-- Two scheme literals that are not prefixes of one another cannot both be
prefixes of the same address. -/
theorem strStartsWith_excl {a p q : String}
    (hp : strStartsWith a p = true)
    (hpq : ¬ p.data <+: q.data) (hqp : ¬ q.data <+: p.data) :
    strStartsWith a q = false := by
  rw [strStartsWith_iff] at hp
  by_contra h
  rw [Bool.not_eq_false, strStartsWith_iff] at h
  rcases List.prefix_or_prefix_of_prefix hp h with h' | h'
  · exact hpq h'
  · exact hqp h'

/-- Map.set followed by Map.get at the same key returns the stored value. -/
theorem registryLookup_set_self (r : ConnectionRegistry) (id : String)
    (c : Connection) :
    registryLookup (registrySet r id c) id = some c := by
  induction r with
  | nil => simp [registrySet, registryLookup]
  | cons kv rest ih =>
    obtain ⟨k, v⟩ := kv
    by_cases hk : k = id
    · simp [registrySet, hk, registryLookup]
    · simp [registrySet, hk, registryLookup, ih]

/-- Setting a key absent from the registry appends the new entry. -/
theorem registrySet_of_lookup_none {r : ConnectionRegistry} {id : String}
    (h : registryLookup r id = none) (c : Connection) :
    registrySet r id c = r ++ [(id, c)] := by
  induction r with
  | nil => simp [registrySet]
  | cons kv rest ih =>
    obtain ⟨k, v⟩ := kv
    by_cases hk : k = id
    · simp [registryLookup, hk] at h
    · simp only [registryLookup, if_neg hk] at h
      simp [registrySet, hk, ih h]

/-- Deleting a key that occurs only as the appended last entry removes
exactly that entry. -/
theorem registryDelete_append_of_lookup_none {r : ConnectionRegistry}
    {id : String} (h : registryLookup r id = none) (c : Connection) :
    registryDelete (r ++ [(id, c)]) id = r := by
  induction r with
  | nil => simp [registryDelete]
  | cons kv rest ih =>
    obtain ⟨k, v⟩ := kv
    by_cases hk : k = id
    · simp [registryLookup, hk] at h
    · simp only [registryLookup, if_neg hk] at h
      simp [registryDelete, hk, ih h]

/-- startTransport only ever touches the endpoint list. -/
theorem startTransport_preserves (s : PeerState) (c : TransportConfig) :
    (s.startTransport c).id = s.id
    ∧ (s.startTransport c).transports = s.transports
    ∧ (s.startTransport c).autoRegister = s.autoRegister
    ∧ (s.startTransport c).started = s.started := by
  unfold PeerState.startTransport
  split
  · simp
  · split
    · simp
    · split <;> simp

/-- Folding startTransport over the transport list only touches endpoints. -/
theorem foldl_startTransport_preserves :
    ∀ (l : List TransportConfig) (s : PeerState),
      (l.foldl PeerState.startTransport s).id = s.id
      ∧ (l.foldl PeerState.startTransport s).transports = s.transports
      ∧ (l.foldl PeerState.startTransport s).autoRegister = s.autoRegister
      ∧ (l.foldl PeerState.startTransport s).started = s.started
  | [], s => by simp
  | c :: l, s => by
    rw [List.foldl_cons]
    obtain ⟨h1, h2, h3, h4⟩ := foldl_startTransport_preserves l (s.startTransport c)
    obtain ⟨g1, g2, g3, g4⟩ := startTransport_preserves s c
    exact ⟨h1.trans g1, h2.trans g2, h3.trans g3, h4.trans g4⟩

/-- stop after start restores every field except that the endpoint list is
cleared (start from a non-started state). -/
theorem peer_stop_start (s : PeerState) (h : s.started = false) :
    s.start.stop = { s with endpoints := [], started := false } := by
  unfold PeerState.start PeerState.stop
  rw [h]
  simp only [Bool.false_eq_true, if_false, Bool.not_true]
  obtain ⟨h1, h2, h3, _⟩ :=
    foldl_startTransport_preserves s.transports s
  cases s with
  | mk id transports autoRegister endpoints started =>
    simp_all [PeerState.mk.injEq]

/-- The manifest namespace predicate coincides with List.isPrefixOf. -/
theorem matchesNamespace_eq_isPrefixOf (ns p : List String) :
    matchesNamespace ns p = ns.isPrefixOf p := by
  rw [Bool.eq_iff_iff, matchesNamespace_iff, List.isPrefixOf_iff_prefix]

-- ===========================================================================
-- Claim theorems
-- ===========================================================================

/-- C4: every procedure announced by the _discovery.announce handler comes
from a registry entry that is not flagged internal; consequently, when every
registry entry at path _discovery.announce is flagged internal (the discovery
procedure registers itself with internal := true), no announced procedure has
that path — discovery never announces itself. -/
theorem discovery_announce_excludes_internal
    (registry : List RegisteredProcedure) (peerId : String)
    (hdisc : ∀ p ∈ registry, p.path = ["_discovery", "announce"] →
      p.metadata.internal = true) :
    (∀ info ∈ (discoveryAnnounceHandler registry peerId).procedures,
      ∃ p ∈ registry, p.metadata.internal = false ∧ info = toProcedureInfo p)
    ∧ ∀ info ∈ (discoveryAnnounceHandler registry peerId).procedures,
      info.path ≠ ["_discovery", "announce"] := by
  constructor
  · intro info hinfo
    simp only [discoveryAnnounceHandler, List.mem_map, List.mem_filter] at hinfo
    obtain ⟨p, ⟨hp, hint⟩, rfl⟩ := hinfo
    exact ⟨p, hp, by simpa using hint, rfl⟩
  · intro info hinfo hpath
    simp only [discoveryAnnounceHandler, List.mem_map, List.mem_filter] at hinfo
    obtain ⟨p, ⟨hp, hint⟩, rfl⟩ := hinfo
    have hp2 : p.path = ["_discovery", "announce"] := by
      simpa [toProcedureInfo] using hpath
    have := hdisc p hp hp2
    simp [this] at hint

/-- C4 witness: a concrete registry holding the discovery procedure itself
and one public procedure; no announced path is the discovery path. -/
theorem discovery_announce_excludes_internal_witness :
    ((discoveryAnnounceHandler
        [discoveryAnnounceProc, { path := ["git", "status"] }]
        "peer-1").procedures.all
      (fun info => decide (info.path ≠ ["_discovery", "announce"]))) = true := by
  have h := (discovery_announce_excludes_internal
      [discoveryAnnounceProc, { path := ["git", "status"] }] "peer-1"
      (by decide)).2
  rw [List.all_eq_true]
  intro info hinfo
  simpa using h info hinfo

/-- C5: with a non-empty namespace, manifest generation keeps exactly the
procedures whose path extends the namespace segment-by-segment (per-segment
string equality, i.e. the list-prefix relation), preserves their original
relative order (the filtered catalog is a sublist of the input), and a
namespace matching nothing yields the empty list rather than an error. -/
theorem manifest_namespace_filtering (ns : List String)
    (registry : List RegisteredProcedure) (h : ns ≠ []) :
    manifestProcedureInfos (some ns) registry
      = (registry.filter (fun p => ns.isPrefixOf p.path)).map toProcedureInfo
    ∧ (filterByNamespace (some ns) registry).Sublist registry
    ∧ ((∀ p ∈ registry, ¬ ns <+: p.path) →
        manifestProcedureInfos (some ns) registry = []) := by
  have hlen : 0 < ns.length := List.length_pos.mpr h
  have hfb : filterByNamespace (some ns) registry
      = registry.filter (fun p => ns.isPrefixOf p.path) := by
    simp [filterByNamespace, hlen, matchesNamespace_eq_isPrefixOf]
  refine ⟨by rw [manifestProcedureInfos, hfb], ?_, ?_⟩
  · rw [hfb]
    exact List.filter_sublist registry
  · intro hnone
    rw [manifestProcedureInfos, hfb]
    have : registry.filter (fun p => ns.isPrefixOf p.path) = [] := by
      rw [List.filter_eq_nil_iff]
      intro p hp
      simpa [ List.isPrefixOf_iff_prefix] using hnone p hp
    rw [this]
    rfl

/-- C5 witness: the catalog from the spec example filtered by the git
namespace keeps exactly the two git procedures, in order. -/
theorem manifest_namespace_filtering_witness :
    manifestProcedureInfos (some ["git"])
      [{ path := ["git", "status"] }, { path := ["git", "add"] },
       { path := ["fs", "read"] }]
      = [{ path := ["git", "status"] }, { path := ["git", "add"] }] := by
  have h := (manifest_namespace_filtering ["git"]
      [{ path := ["git", "status"] }, { path := ["git", "add"] },
       { path := ["fs", "read"] }] (by decide)).1
  rw [h]
  rfl

/-- C6: for every option set (any list of transport configs), the
factory-built peer satisfies: start on an already-started peer is a no-op,
stop on a non-started peer is a no-op, stop after start leaves the endpoint
list empty, and the start/stop pair returns the peer to its initial state,
so the pair is repeatable without error. -/
theorem peer_start_stop_lifecycle (options : PeerOptions) :
    ((peerInit options).start).start = (peerInit options).start
    ∧ (peerInit options).stop = peerInit options
    ∧ ((peerInit options).start.stop).getEndpoints = []
    ∧ (peerInit options).start.stop = peerInit options := by
  have hstart : (peerInit options).started = false := rfl
  have hss : (peerInit options).start.stop = peerInit options := by
    rw [peer_stop_start _ hstart]
    simp [peerInit]
  refine ⟨?_, ?_, ?_, hss⟩
  · have h1 : ((peerInit options).start).started = true := by
      unfold PeerState.start
      rw [hstart]
      simp
    conv_lhs => rw [PeerState.start]
    rw [h1]
    simp
  · simp [PeerState.stop, hstart]
  · rw [hss]
    rfl

/-- C7 counterexample: a transport config with the unrecognized tag
carrier-pigeon is accepted by createPeer (construction succeeds, no error),
and start silently skips it: the peer ends up started with no endpoints and
no error was raised — refuting the claim that an unrecognized variant fails
at construction time. -/
theorem peer_unrecognized_transport_cex :
    createPeer { id := "peer-x", transports := [{ type := "carrier-pigeon" }] }
      = Except.ok (peerInit
          { id := "peer-x", transports := [{ type := "carrier-pigeon" }] })
    ∧ ((peerInit { id := "peer-x",
                   transports := [{ type := "carrier-pigeon" }] }).start).endpoints
        = []
    ∧ ((peerInit { id := "peer-x",
                   transports := [{ type := "carrier-pigeon" }] }).start).started
        = true := by
  refine ⟨rfl, ?_, ?_⟩ <;> decide

/-- C7 amended: construction performs no transport validation and never
fails, whatever the configured variants; at start, the dispatch switch has
no default case, so a config whose tag is none of http, websocket, local is
silently skipped — no endpoint is appended and no error is raised, at
construction time or at runtime. -/
theorem peer_unrecognized_transport_ignored (options : PeerOptions)
    (s : PeerState) (config : TransportConfig)
    (h1 : config.type ≠ "http") (h2 : config.type ≠ "websocket")
    (h3 : config.type ≠ "local") :
    createPeer options = Except.ok (peerInit options)
    ∧ s.startTransport config = s := by
  refine ⟨rfl, ?_⟩
  unfold PeerState.startTransport
  rw [if_neg h1, if_neg h2, if_neg h3]

/-- C7 amended witness: concrete unrecognized tag. -/
theorem peer_unrecognized_transport_ignored_witness :
    createPeer { id := "p", transports := [] }
      = Except.ok (peerInit { id := "p", transports := [] })
    ∧ (peerInit { id := "p", transports := [] }).startTransport
        { type := "carrier-pigeon" }
      = peerInit { id := "p", transports := [] } :=
  peer_unrecognized_transport_ignored _ _ _ (by decide) (by decide) (by decide)

/-- C9: the failing behaviour at the failing input — mkdir rejects with a
permission error, yet ensureDir resolves successfully; indeed ensureDir
resolves successfully for every mkdir outcome, so no directory-creation
failure ever propagates to the manifest.generate caller. -/
theorem ensureDir_swallows_permission_error :
    mkdirRecursive MkdirOutcome.permissionDenied
      = Except.error "EACCES: permission denied"
    ∧ ensureDir MkdirOutcome.permissionDenied = Except.ok ()
    ∧ ∀ outcome, ensureDir outcome = Except.ok () := by
  refine ⟨rfl, rfl, ?_⟩
  intro outcome
  cases outcome <;> rfl

/-- C1 counterexample: connect over an http address whose discovery call
fails still returns a Connection whose remote.state is the literal
"connected" (with the degraded peer id), refuting the claim that the state
is "connected" only if the discovery handshake succeeded. -/
theorem connect_reports_connected_after_failed_discovery_cex :
    (connect "conn-1" 0 (DiscoveryOutcome.failure "ECONNRESET")
        { address := "http://example.com" } []).map
      (fun r => (r.fst.remote.state, r.fst.remote.remotePeerId))
      = Except.ok ("connected", "unknown") := by
  rfl

/-- C1 amended: whenever connect returns a Connection at all, its
remote.state is "connected" — the source stores the literal unconditionally,
regardless of the discovery outcome; discovery failure degrades only the
peer id and the procedure list. -/
theorem connect_state_always_connected
    (connectionId : String) (now : Nat) (discovery : DiscoveryOutcome)
    (options : ConnectOptions) (registry : ConnectionRegistry)
    (pr : Connection × ConnectionRegistry)
    (h : connect connectionId now discovery options registry
      = Except.ok pr) :
    pr.fst.remote.state = "connected" := by
  simp only [connect] at h
  rcases hc : createClient options.address
      (options.transport.getD (detectTransport options.address))
      options.timeout with e | client
  · rw [hc] at h
    simp at h
  · rw [hc] at h
    simp only [Except.ok.injEq] at h
    rw [← h]

/-- C1 witness: the amended theorem applied at a concrete successful call. -/
theorem connect_state_always_connected_witness :
    ({ id := "conn-1",
       remote := { id := "conn-1", remotePeerId := "peer-2",
                   transport := TransportType.websocket, state := "connected",
                   remoteProcedures := [], connectedAt := some 0 },
       client := ClientModel.wsClient "ws://example.com" 10000 } :
      Connection).remote.state = "connected" :=
  connect_state_always_connected "conn-1" 0
    (DiscoveryOutcome.success "peer-2" []) { address := "ws://example.com" } []
    ({ id := "conn-1",
       remote := { id := "conn-1", remotePeerId := "peer-2",
                   transport := TransportType.websocket, state := "connected",
                   remoteProcedures := [], connectedAt := some 0 },
       client := ClientModel.wsClient "ws://example.com" 10000 },
     [("conn-1",
       { id := "conn-1",
         remote := { id := "conn-1", remotePeerId := "peer-2",
                     transport := TransportType.websocket, state := "connected",
                     remoteProcedures := [], connectedAt := some 0 },
         client := ClientModel.wsClient "ws://example.com" 10000 })])
    rfl

/-- C2: when the resolved transport is not local (so the channel opens) and
the discovery call fails, connect does not throw: it returns a Connection
whose remotePeerId is "unknown" and whose remoteProcedures is empty. -/
theorem connect_discovery_failure_degrades
    (connectionId : String) (now : Nat) (message : String)
    (options : ConnectOptions) (registry : ConnectionRegistry)
    (h : options.transport.getD (detectTransport options.address)
      ≠ TransportType.local) :
    (connect connectionId now (DiscoveryOutcome.failure message) options
        registry).map
      (fun r => (r.fst.remote.remotePeerId, r.fst.remote.remoteProcedures))
      = Except.ok ("unknown", []) := by
  rcases ht : options.transport.getD (detectTransport options.address)
    with _ | _ | _
  · simp [connect, createClient, discoverProcedures, ht, Except.map]
  · simp [connect, createClient, discoverProcedures, ht, Except.map]
  · exact absurd ht h

/-- C2 witness: concrete http connect with failing discovery. -/
theorem connect_discovery_failure_degrades_witness :
    (connect "conn-9" 7 (DiscoveryOutcome.failure "timeout")
        { address := "http://example.com" } []).map
      (fun r => (r.fst.remote.remotePeerId, r.fst.remote.remoteProcedures))
      = Except.ok ("unknown", []) :=
  connect_discovery_failure_degrades "conn-9" 7 "timeout"
    { address := "http://example.com" } [] (by decide)

/-- C3: disconnect of an id absent from the registry returns false and
changes nothing; after a successful connect that stored a fresh id, the
first disconnect of that id returns true and removes the entry (restoring
the prior registry), and a second disconnect of the same id returns false. -/
theorem disconnect_registry_semantics
    (registry : ConnectionRegistry) (unknownId : String)
    (h1 : registryLookup registry unknownId = none)
    (connectionId : String) (now : Nat) (discovery : DiscoveryOutcome)
    (options : ConnectOptions) (pr : Connection × ConnectionRegistry)
    (h2 : connect connectionId now discovery options registry = Except.ok pr)
    (h3 : registryLookup registry connectionId = none) :
    disconnect registry unknownId = (false, registry)
    ∧ (disconnect pr.snd connectionId).fst = true
    ∧ (disconnect pr.snd connectionId).snd = registry
    ∧ registryLookup (disconnect pr.snd connectionId).snd connectionId = none
    ∧ (disconnect (disconnect pr.snd connectionId).snd connectionId).fst
        = false := by
  have hsnd : pr.snd = registrySet registry connectionId pr.fst := by
    simp only [connect] at h2
    rcases hc : createClient options.address
        (options.transport.getD (detectTransport options.address))
        options.timeout with e | client
    · rw [hc] at h2
      simp at h2
    · rw [hc] at h2
      simp only [Except.ok.injEq] at h2
      rw [← h2]
  have hset : registrySet registry connectionId pr.fst
      = registry ++ [(connectionId, pr.fst)] :=
    registrySet_of_lookup_none h3 pr.fst
  have hdel : registryDelete (registry ++ [(connectionId, pr.fst)])
      connectionId = registry :=
    registryDelete_append_of_lookup_none h3 pr.fst
  have hlook : registryLookup pr.snd connectionId = some pr.fst := by
    rw [hsnd]
    exact registryLookup_set_self registry connectionId pr.fst
  have hd1 : disconnect pr.snd connectionId = (true, registry) := by
    rw [disconnect, hlook, hsnd, hset, hdel]
  refine ⟨by simp [disconnect, h1], by simp [hd1], by simp [hd1], ?_, ?_⟩
  · rw [hd1]
    exact h3
  · rw [hd1]
    simp [disconnect, h3]

/-- C3 witness: empty initial registry, concrete connect, disconnect twice. -/
theorem disconnect_registry_semantics_witness :
    disconnect [] "no-such-id" = (false, [])
    ∧ (disconnect
        [("conn-1",
          { id := "conn-1",
            remote := { id := "conn-1", remotePeerId := "peer-2",
                        transport := TransportType.websocket,
                        state := "connected",
                        remoteProcedures := [], connectedAt := some 0 },
            client := ClientModel.wsClient "ws://example.com" 10000 })]
        "conn-1").fst = true := by
  have h := disconnect_registry_semantics [] "no-such-id" rfl
    "conn-1" 0 (DiscoveryOutcome.success "peer-2" [])
    { address := "ws://example.com" }
    ({ id := "conn-1",
       remote := { id := "conn-1", remotePeerId := "peer-2",
                   transport := TransportType.websocket, state := "connected",
                   remoteProcedures := [], connectedAt := some 0 },
       client := ClientModel.wsClient "ws://example.com" 10000 },
     [("conn-1",
       { id := "conn-1",
         remote := { id := "conn-1", remotePeerId := "peer-2",
                     transport := TransportType.websocket, state := "connected",
                     remoteProcedures := [], connectedAt := some 0 },
         client := ClientModel.wsClient "ws://example.com" 10000 })])
    rfl rfl
  exact ⟨h.1, h.2.1⟩

/-- C8: transport inference from the address scheme — ws:// or wss:// gives
websocket, http:// or https:// gives http, local:// gives local, anything
with none of the five schemes defaults to http — and createClient with the
local transport fails with an error instead of opening a channel. -/
theorem transport_inference_and_local_rejected (address : String)
    (timeout : Option Nat) :
    ((strStartsWith address "ws://" = true
        ∨ strStartsWith address "wss://" = true) →
      detectTransport address = TransportType.websocket)
    ∧ ((strStartsWith address "http://" = true
        ∨ strStartsWith address "https://" = true) →
      detectTransport address = TransportType.http)
    ∧ (strStartsWith address "local://" = true →
      detectTransport address = TransportType.local)
    ∧ (strStartsWith address "ws://" = false →
       strStartsWith address "wss://" = false →
       strStartsWith address "http://" = false →
       strStartsWith address "https://" = false →
       strStartsWith address "local://" = false →
      detectTransport address = TransportType.http)
    ∧ createClient address TransportType.local timeout
        = Except.error
            "Local transport for outbound connections not yet implemented" := by
  refine ⟨?_, ?_, ?_, ?_, rfl⟩
  · intro h
    rcases h with h | h <;> simp [detectTransport, h]
  · intro h
    rcases h with h | h
    · have hw : strStartsWith address "ws://" = false :=
        strStartsWith_excl h (by decide) (by decide)
      have hws : strStartsWith address "wss://" = false :=
        strStartsWith_excl h (by decide) (by decide)
      simp [detectTransport, hw, hws, h]
    · have hw : strStartsWith address "ws://" = false :=
        strStartsWith_excl h (by decide) (by decide)
      have hws : strStartsWith address "wss://" = false :=
        strStartsWith_excl h (by decide) (by decide)
      simp [detectTransport, hw, hws, h]
  · intro h
    have hw : strStartsWith address "ws://" = false :=
      strStartsWith_excl h (by decide) (by decide)
    have hws : strStartsWith address "wss://" = false :=
      strStartsWith_excl h (by decide) (by decide)
    have hh : strStartsWith address "http://" = false :=
      strStartsWith_excl h (by decide) (by decide)
    have hhs : strStartsWith address "https://" = false :=
      strStartsWith_excl h (by decide) (by decide)
    simp [detectTransport, hw, hws, hh, hhs, h]
  · intro g1 g2 g3 g4 g5
    simp [detectTransport, g1, g2, g3, g4, g5]

/-- C8 witness: the theorem applied at one concrete address per scheme. -/
theorem transport_inference_and_local_rejected_witness :
    detectTransport "wss://peer.example" = TransportType.websocket
    ∧ detectTransport "https://peer.example" = TransportType.http
    ∧ detectTransport "local://peer" = TransportType.local
    ∧ detectTransport "peer.example:3000" = TransportType.http
    ∧ createClient "local://peer" TransportType.local none
        = Except.error
            "Local transport for outbound connections not yet implemented" :=
  ⟨(transport_inference_and_local_rejected "wss://peer.example" none).1
      (Or.inr (by decide)),
   (transport_inference_and_local_rejected "https://peer.example" none).2.1
      (Or.inr (by decide)),
   (transport_inference_and_local_rejected "local://peer" none).2.2.1
      (by decide),
   (transport_inference_and_local_rejected "peer.example:3000" none).2.2.2.1
      (by decide) (by decide) (by decide) (by decide) (by decide),
   (transport_inference_and_local_rejected "local://peer" none).2.2.2.2⟩

/-- C10: the server.create handler computes procedureCount from the raw
input field: an omitted autoRegister yields procedureCount 0 even though the
peer itself is constructed with autoRegister defaulted to true; with
autoRegister explicitly true, procedureCount counts exactly the registered
procedures that have a handler. -/
theorem server_create_procedure_count (serverId : String)
    (registry : List RegisteredProcedure) (input : ServerCreateInput) :
    (input.autoRegister = none →
      (serverCreateHandler serverId registry input).map
        (fun r => (r.fst.procedureCount, r.snd.autoRegister))
        = Except.ok (0, true))
    ∧ (input.autoRegister = some true →
      (serverCreateHandler serverId registry input).map
        (fun r => r.fst.procedureCount)
        = Except.ok ((registry.filter (fun p => p.hasHandler)).length)) := by
  have har : ∀ s : PeerState, (s.start).autoRegister = s.autoRegister := by
    intro s
    unfold PeerState.start
    split
    · rfl
    · exact (foldl_startTransport_preserves s.transports s).2.2.1
  constructor <;> intro h <;>
    simp [serverCreateHandler, createPeer, peerInit, h, har, Except.map]

/-- C10 witness: a registry with one handler-backed procedure and one
handlerless one; omitted autoRegister gives count 0 with the peer defaulted
to autoRegister true, explicit true gives count 1. -/
theorem server_create_procedure_count_witness :
    (serverCreateHandler "srv-1"
        [{ path := ["git", "status"] }, { path := ["noop"], hasHandler := false }]
        {}).map (fun r => (r.fst.procedureCount, r.snd.autoRegister))
      = Except.ok (0, true)
    ∧ (serverCreateHandler "srv-1"
        [{ path := ["git", "status"] }, { path := ["noop"], hasHandler := false }]
        { autoRegister := some true }).map (fun r => r.fst.procedureCount)
      = Except.ok 1 := by
  constructor
  · exact (server_create_procedure_count "srv-1"
      [{ path := ["git", "status"] }, { path := ["noop"], hasHandler := false }]
      {}).1 rfl
  · have h := (server_create_procedure_count "srv-1"
      [{ path := ["git", "status"] }, { path := ["noop"], hasHandler := false }]
      { autoRegister := some true }).2 rfl
    simpa using h

end ClientServer
